import Mathlib

/-!
Formal model of the document-analysis pipeline in `src/scripts/`
(`topic_extractor.py`, `evidence_collector.py`, `story_generator.py`,
`auto_processor.py`).  External services (language model, embedding index,
tokenizer, text splitter) are modelled as oracle functions; LLM calls that may
raise are `Except`-valued, and each source `try/except` is an explicit `match`.
Machine-level file I/O (output directories, intermediate JSON dumps) is out of
scope per the specification and is not modelled.  Python string operations are
given executable character-list implementations so that concrete runs reduce
inside the kernel.
-/

namespace AutoDoc

/-! Python string and list semantics used by the source code. -/

/-- Split a character list at every occurrence of `sep`, Python
`str.split(sep)` style: `n` separators yield `n + 1` (possibly empty) parts. -/
def splitChar (sep : Char) : List Char → List (List Char)
  | [] => [[]]
  | c :: rest =>
    if c = sep then [] :: splitChar sep rest
    else
      match splitChar sep rest with
      | [] => [[c]]
      | g :: gs => (c :: g) :: gs

/-- Split a character list at every character satisfying `p`. -/
def splitPred (p : Char → Bool) : List Char → List (List Char)
  | [] => [[]]
  | c :: rest =>
    if p c then [] :: splitPred p rest
    else
      match splitPred p rest with
      | [] => [[c]]
      | g :: gs => (c :: g) :: gs

/-- Drop leading and trailing whitespace from a character list. -/
def stripChars (cs : List Char) : List Char :=
  ((cs.dropWhile Char.isWhitespace).reverse.dropWhile Char.isWhitespace).reverse

/-- Python `s.strip()`. -/
def pyStrip (s : String) : String :=
  String.mk (stripChars s.toList)

/-- Python `s.split(sep)` for a one-character separator. -/
def pySplitOn (sep : Char) (s : String) : List String :=
  (splitChar sep s.toList).map String.mk

/-- Python `str.split()` with no argument: split on whitespace runs, dropping
empty pieces. -/
def pySplitWs (s : String) : List String :=
  ((splitPred Char.isWhitespace s.toList).map String.mk).filter (fun t => t ≠ "")

/-- Whether `n` occurs as a contiguous sublist of the second argument. -/
def hasSub (n : List Char) : List Char → Bool
  | [] => n.isEmpty
  | c :: rest => n.isPrefixOf (c :: rest) || hasSub n rest

/-- Python `needle in haystack` for strings: substring containment (an empty
needle is always contained). -/
def pyIn (needle haystack : String) : Bool :=
  hasSub needle.toList haystack.toList

/-- Python `s.upper()`. -/
def pyUpper (s : String) : String :=
  String.mk (s.toList.map Char.toUpper)

/-- Python `s.lower()`. -/
def pyLower (s : String) : String :=
  String.mk (s.toList.map Char.toLower)

/-- Python `s.startswith(p)`. -/
def pyStartsWith (s p : String) : Bool :=
  p.toList.isPrefixOf s.toList

/-- Python `s[n:]`. -/
def pyDropChars (n : Nat) (s : String) : String :=
  String.mk (s.toList.drop n)

/-- Python `sep.join(parts)` for a list of strings. -/
def strIntercalate (sep : String) (parts : List String) : String :=
  String.mk (List.intercalate sep.toList (parts.map String.toList))

/-- Python `sep.join(s)` when `s` is itself a `str`: iterating a string yields
its characters, so every character of `s` is joined with `sep` between. -/
def pyJoinStr (sep s : String) : String :=
  String.mk (List.intercalate sep.toList (s.toList.map (fun c => [c])))

/-- Tail of Python's integer-literal grammar after the first digit: digits with
single underscores allowed between digits. -/
def pyDigitRest : List Char → Bool
  | [] => true
  | '_' :: [] => false
  | '_' :: d :: rest => d.isDigit && pyDigitRest rest
  | c :: rest => c.isDigit && pyDigitRest rest

/-- A nonempty run of digits, with single underscores allowed between them. -/
def pyDigitRun : List Char → Bool
  | [] => false
  | c :: rest => c.isDigit && pyDigitRest rest

/-- Numeric value of a digit run, ignoring underscores. -/
def digitsValue (cs : List Char) : Nat :=
  cs.foldl (fun n c => if c = '_' then n else n * 10 + (c.toNat - '0'.toNat)) 0

/-- Python `int(s)` on a decimal string: strip whitespace, optional sign, then
a digit run; `none` models the `ValueError` raised on anything else. -/
def pyInt (s : String) : Option Int :=
  match (pyStrip s).toList with
  | '+' :: rest => if pyDigitRun rest then some (digitsValue rest) else none
  | '-' :: rest => if pyDigitRun rest then some (-(digitsValue rest : Int)) else none
  | cs => if pyDigitRun cs then some (digitsValue cs) else none

/-- Python list indexing `l[i]`: nonnegative indices from the front, negative
indices from the back; `none` models the `IndexError` raised out of range. -/
def pyGet? (l : List α) (i : Int) : Option α :=
  if 0 ≤ i then l.get? i.toNat
  else if -(l.length : Int) ≤ i then l.get? (((l.length : Int) + i).toNat)
  else none

/-- Python `d[k] = v` on an insertion-ordered dict: overwrite in place when the
key exists, append otherwise. -/
def dictSet : List (String × α) → String → α → List (String × α)
  | [], k, v => [(k, v)]
  | p :: rest, k, v => if p.1 = k then (k, v) :: rest else p :: dictSet rest k v

/-- Python `d.get(k)` on an insertion-ordered dict. -/
def dictGet? : List (String × α) → String → Option α
  | [], _ => none
  | p :: rest, k => if p.1 = k then some p.2 else dictGet? rest k

/-- Fuel-driven helper for `chunksOf`; the fuel is an upper bound on the
number of slices, so recursion is structural and kernel-reducible. -/
def chunksOfAux (bs : Nat) : Nat → List α → List (List α)
  | _, [] => []
  | 0, _ :: _ => []
  | fuel + 1, x :: xs => (x :: xs).take bs :: chunksOfAux bs fuel ((x :: xs).drop bs)

/-- The slices `l[i : i+bs]` for `i` in `range(0, len(l), bs)` (with a
positive step, as at the sole call site where the step is 10). -/
def chunksOf (bs : Nat) (l : List α) : List (List α) :=
  chunksOfAux bs l.length l

/-- One step of a stable descending insertion: `x` goes after every earlier
element whose score is at least as large. -/
def insertScoredDesc (x : α × ℚ) : List (α × ℚ) → List (α × ℚ)
  | [] => [x]
  | y :: ys => if y.2 ≥ x.2 then y :: insertScoredDesc x ys else x :: y :: ys

/-- Python `list.sort(key=lambda x: x[1], reverse=True)`: stable sort,
descending by the score component. -/
def pySortScoredDesc (l : List (α × ℚ)) : List (α × ℚ) :=
  l.foldl (fun acc x => insertScoredDesc x acc) []

/-! The `TopicSet` data model of `topic_extractor.py`: three category lists
plus a parallel quote mapping, as built by `_get_empty_result`. -/

/-- The closed three-element category set. -/
inductive Category
  | concerns
  | wins
  | opportunities
deriving DecidableEq

/-- The per-category quote lists of a `TopicSet`. -/
structure Quotes where
  concerns : List String
  wins : List String
  opportunities : List String
deriving DecidableEq

/-- The result shape produced by `TopicExtractor._get_empty_result` and
mutated by `_parse_topics`. -/
structure TopicSet where
  concerns : List String
  wins : List String
  opportunities : List String
  quotes : Quotes
deriving DecidableEq

/-- `result[current_section].append(topic)` in `_parse_topics`. -/
def TopicSet.addTopic (ts : TopicSet) : Category → String → TopicSet
  | Category.concerns, t => { ts with concerns := ts.concerns ++ [t] }
  | Category.wins, t => { ts with wins := ts.wins ++ [t] }
  | Category.opportunities, t => { ts with opportunities := ts.opportunities ++ [t] }

/-- `result['quotes'][current_section].append(quote)` in `_parse_topics`. -/
def TopicSet.addQuote (ts : TopicSet) : Category → String → TopicSet
  | Category.concerns, q => { ts with quotes := { ts.quotes with concerns := ts.quotes.concerns ++ [q] } }
  | Category.wins, q => { ts with quotes := { ts.quotes with wins := ts.quotes.wins ++ [q] } }
  | Category.opportunities, q => { ts with quotes := { ts.quotes with opportunities := ts.quotes.opportunities ++ [q] } }

/-- `TopicExtractor._get_empty_result`: all category and quote lists empty. -/
def get_empty_result : TopicSet :=
  { concerns := [], wins := [], opportunities := [],
    quotes := { concerns := [], wins := [], opportunities := [] } }

/-- One loop iteration of `TopicExtractor._parse_topics`: strip the line, skip
blanks, switch section on a case-insensitive header, append a topic on a
bullet marker or a quote on an angle marker when a section is active, and
otherwise leave the state unchanged. -/
def parseLine (st : Option Category × TopicSet) (rawLine : String) : Option Category × TopicSet :=
  let line := pyStrip rawLine
  if line = "" then st
  else if pyUpper line = ("CONCERNS:") then (some Category.concerns, st.2)
  else if pyUpper line = ("WINS:") then (some Category.wins, st.2)
  else if pyUpper line = ("OPPORTUNITIES:") then (some Category.opportunities, st.2)
  else if pyStartsWith line ("- ") then
    match st.1 with
    | some c => (st.1, st.2.addTopic c (pyStrip (pyDropChars 2 line)))
    | none => st
  else if pyStartsWith line ("> ") then
    match st.1 with
    | some c => (st.1, st.2.addQuote c (pyStrip (pyDropChars 2 line)))
    | none => st
  else st

/-- `TopicExtractor._parse_topics`: fold the line parser over
`response.split('\n')`, starting with no active section and the empty result.
The source wraps the loop in a `try/except` returning the empty result, but
the loop body cannot raise. -/
def parse_topics (response : String) : TopicSet :=
  ((pySplitOn '\n' response).foldl parseLine (none, get_empty_result)).2

/-! The `TopicExtractor` pipeline of `topic_extractor.py`.  The LLM and the
tokenizer are external, so they appear as oracle fields; an `Except.error`
models the call raising. -/

/-- External collaborators of `TopicExtractor`: the three LLM prompts
(per-document summary, batch synthesis, final categorized extraction) and the
`tiktoken` tokenizer.  Each oracle receives the content substituted into the
corresponding prompt template. -/
structure ExtractorOracle where
  summary : String → Except String String
  synthesis : String → Except String String
  topics : String → Except String String
  tokens : String → Except String Nat

/-- `self.batch_size = 10` in `TopicExtractor.__init__`. -/
def batch_size : Nat := 10

/-- `self.max_tokens = 6000` in `TopicExtractor.__init__`. -/
def max_tokens : Nat := 6000

/-- `TopicExtractor._initial_summary`: one LLM call; any exception is caught
and degrades to the empty string. -/
def initial_summary (o : ExtractorOracle) (content : String) : String :=
  match o.summary content with
  | Except.ok r => r
  | Except.error _ => ""

/-- `TopicExtractor._batch_synthesis`: formats the prompt with
`"\n\n".join(summaries)` and issues one LLM call; any exception is caught and
degrades to the empty string.  The sole call site passes a single pre-joined
`str` (not the annotated `List[str]`), so the join iterates its characters. -/
def batch_synthesis (o : ExtractorOracle) (summaries : String) : String :=
  match o.synthesis (pyJoinStr ("\n\n") summaries) with
  | Except.ok r => r
  | Except.error _ => ""

/-- Stage 1 of `extract_topics`: the `initial_summaries` dict, keeping only
documents whose summary came back non-empty (Python truthiness). -/
def initialSummaries (o : ExtractorOracle) (documents : List (String × String)) : List (String × String) :=
  documents.foldl
    (fun acc kv =>
      let s := initial_summary o kv.2
      if s ≠ "" then acc ++ [(kv.1, s)] else acc)
    []

/-- The `batch_text` built for one batch in stage 2 of `extract_topics`:
`"\n\n".join(f"File: {k}\n{v}" ...)`. -/
def batch_text (batch : List (String × String)) : String :=
  strIntercalate ("\n\n") (batch.map (fun kv => ("File: ") ++ kv.1 ++ ("\n") ++ kv.2))

/-- The content substituted into the synthesis prompt for each batch: because
`_batch_synthesis` receives the pre-joined `batch_text` string, its
`"\n\n".join` interleaves the separator between the characters. -/
def synthesisRequests (o : ExtractorOracle) (documents : List (String × String)) : List String :=
  (chunksOf batch_size (initialSummaries o documents)).map
    (fun b => pyJoinStr ("\n\n") (batch_text b))

/-- The synthesis results of stage 2, one per batch, before the token check. -/
def batchSyntheses (o : ExtractorOracle) (documents : List (String × String)) : List String :=
  (chunksOf batch_size (initialSummaries o documents)).map
    (fun b => batch_synthesis o (batch_text b))

/-- Stage 2 of `extract_topics`: per batch, synthesize, count tokens with the
tokenizer, and append the synthesis to `final_summaries` only when the count
is at most `max_tokens`.  A tokenizer exception escapes to the stage's outer
handler. -/
def finalSummaries (o : ExtractorOracle) (documents : List (String × String)) : Except String (List String) :=
  (chunksOf batch_size (initialSummaries o documents)).foldlM
    (fun acc b => do
      let syn := batch_synthesis o (batch_text b)
      let tokens ← o.tokens syn
      pure (if tokens ≤ max_tokens then acc ++ [syn] else acc))
    []

/-- The monadic body of `TopicExtractor.extract_topics` before its outer
`try/except`: stages 1 and 2, then the final categorization call parsed by
`_parse_topics`. -/
def extractStages (o : ExtractorOracle) (documents : List (String × String)) : Except String TopicSet := do
  let fs ← finalSummaries o documents
  let combined := strIntercalate ("\n\n") fs
  let response ← o.topics combined
  pure (parse_topics response)

/-- `TopicExtractor.extract_topics`: any exception in the staged body is
caught and yields `_get_empty_result`. -/
def extract_topics (o : ExtractorOracle) (documents : List (String × String)) : TopicSet :=
  match extractStages o documents with
  | Except.ok r => r
  | Except.error _ => get_empty_result

/-- An extractor oracle whose external calls never raise. -/
def totalExtractor (su sy tp : String → String) (tk : String → Nat) : ExtractorOracle :=
  { summary := fun s => Except.ok (su s)
    synthesis := fun s => Except.ok (sy s)
    topics := fun s => Except.ok (tp s)
    tokens := fun s => Except.ok (tk s) }

/-! The `EvidenceCollector` pipeline of `evidence_collector.py`. -/

/-- Chunk metadata attached in `EvidenceCollector._prepare_chunks`. -/
structure ChunkMeta where
  source : String
  chunk_id : Nat
  is_quote : Bool
  has_numbers : Bool
deriving DecidableEq

/-- A document chunk: content plus metadata. -/
structure Chunk where
  content : String
  metadata : ChunkMeta
deriving DecidableEq

/-- The metadata computed for chunk `i` of document `filename` in
`_prepare_chunks`; the source tests containment of the ASCII double quote
three times over. -/
def chunkMetaOf (filename : String) (i : Nat) (text : String) : ChunkMeta :=
  { source := filename
    chunk_id := i
    is_quote := text.toList.any (fun c => c = '"')
    has_numbers := text.toList.any Char.isDigit }

/-- The `evidence` dict assembled per search hit in `collect_evidence`:
`{'content', 'metadata', 'similarity'}`. -/
structure ScoredCandidate where
  content : String
  metadata : ChunkMeta
  similarity : ℚ
deriving DecidableEq

/-- The curated item shape returned per topic by `collect_evidence`. -/
structure EvidenceItem where
  text : String
  source : String
  relevance : String
deriving DecidableEq

/-- External collaborators of `EvidenceCollector`: the recursive text
splitter, the FAISS similarity search over the indexed chunks
(`k=10, fetch_k=20` are fixed at the call site), and the LLM validation call,
keyed by the topic, category and candidate contents interpolated into its
prompt. -/
structure CollectorOracle where
  split_text : String → List String
  search : List Chunk → String → Except String (List (Chunk × ℚ))
  validate : String → String → List String → Except String String

/-- `EvidenceCollector._prepare_chunks`: split every document and attach
source/index/flag metadata to each piece. -/
def prepare_chunks (o : CollectorOracle) (documents : List (String × String)) : List Chunk :=
  documents.foldl
    (fun acc kv =>
      acc ++ ((o.split_text kv.2).enum.map
        (fun it => { content := it.2, metadata := chunkMetaOf kv.1 it.1 it.2 })))
    []

/-- `EvidenceCollector._score_evidence`: heuristic relevance weights for a
quote flag, a numbers flag, at least ten words of context, and a
case-insensitive topic-keyword substring match. -/
def score_evidence (evidence : ScoredCandidate) (topic : String) : ℚ :=
  let s0 : ℚ := 0
  let s1 := if evidence.metadata.is_quote then s0 + 3/10 else s0
  let s2 := if evidence.metadata.has_numbers then s1 + 3/10 else s1
  let s3 := if 10 ≤ (pySplitWs evidence.content).length then s2 + 2/10 else s2
  if (pySplitWs (pyLower topic)).any (fun kw => pyIn kw (pyLower evidence.content))
  then s3 + 2/10 else s3

/-- The composite score of `collect_evidence`:
`(similarity_score + relevance_score) / 2`. -/
def final_score (similarity relevance : ℚ) : ℚ :=
  (similarity + relevance) / 2

/-- Parse of the validation reply: `int(i) for i in response.strip().split(',')`;
`none` models any `ValueError`. -/
def pyParseReply (reply : String) : Option (List Int) :=
  (pySplitOn ',' (pyStrip reply)).mapM pyInt

/-- The `try/except` around index parsing and selection in `collect_evidence`:
parse the reply as integers, drop those at least the candidate count, and
select candidates by Python indexing; any `ValueError` or `IndexError` falls
back to all candidates. -/
def validateEvidence (reply : String) (best : List ScoredCandidate) : List ScoredCandidate :=
  match pyParseReply reply with
  | none => best
  | some is =>
    let keep := is.filter (fun i => i < (best.length : Int))
    if keep.all (fun i => -(best.length : Int) ≤ i) then
      keep.filterMap (fun i => pyGet? best i)
    else best

/-- Output shaping of `collect_evidence`: `{text, source, relevance}` with the
relevance kind chosen by the chunk's quote flag. -/
def toItem (e : ScoredCandidate) : EvidenceItem :=
  { text := e.content
    source := e.metadata.source
    relevance := if e.metadata.is_quote then ("direct_quote") else ("supporting_evidence") }

/-- The sorted, top-5 candidate list for one topic: score each search hit with
the composite score, stable-sort descending, keep the first five. -/
def bestCandidates (results : List (Chunk × ℚ)) (topic : String) : List ScoredCandidate :=
  let scored := results.map
    (fun dr =>
      let evidence : ScoredCandidate :=
        { content := dr.1.content, metadata := dr.1.metadata, similarity := dr.2 }
      (evidence, final_score dr.2 (score_evidence evidence topic)))
  ((pySortScoredDesc scored).take 5).map (fun p => p.1)

/-- The loop body of `collect_evidence` for one `(category, topic)` pair:
search, score, sort, keep the top five, validate by LLM reply, and shape the
retained candidates into evidence items. -/
def topicEvidence (o : CollectorOracle) (chunks : List Chunk) (category topic : String) :
    Except String (List EvidenceItem) := do
  let results ← o.search chunks topic
  let best := bestCandidates results topic
  let reply ← o.validate topic category (best.map (fun e => e.content))
  pure ((validateEvidence reply best).map toItem)

/-- The `(category, topic-list)` pairs iterated by `collect_evidence`:
insertion order of `_get_empty_result`, with the `quotes` entry skipped. -/
def categoryPairs (topics : TopicSet) : List (String × List String) :=
  [(("concerns"), topics.concerns), (("wins"), topics.wins), (("opportunities"), topics.opportunities)]

/-- `EvidenceCollector.collect_evidence`: chunk and index the documents, then
fill the `evidence_by_topic` dict per category and topic; any exception in
the whole collection yields the empty dict. -/
def collect_evidence (o : CollectorOracle) (documents : List (String × String)) (topics : TopicSet) :
    List (String × List EvidenceItem) :=
  match
    (do
      let chunks := prepare_chunks o documents
      (categoryPairs topics).foldlM
        (fun acc ct =>
          ct.2.foldlM
            (fun acc2 topic => do
              let items ← topicEvidence o chunks ct.1 topic
              pure (dictSet acc2 topic items))
            acc)
        ([] : List (String × List EvidenceItem))
      : Except String (List (String × List EvidenceItem)))
  with
  | Except.ok r => r
  | Except.error _ => []

/-- A collector oracle whose external calls never raise. -/
def totalCollector (sp : String → List String) (se : List Chunk → String → List (Chunk × ℚ))
    (va : String → String → List String → String) : CollectorOracle :=
  { split_text := sp
    search := fun c q => Except.ok (se c q)
    validate := fun t c xs => Except.ok (va t c xs) }

/-- The per-topic loop body under a never-raising oracle, as a plain value. -/
def topicEvidenceT (sp : String → List String) (se : List Chunk → String → List (Chunk × ℚ))
    (va : String → String → List String → String)
    (documents : List (String × String)) (category topic : String) : List EvidenceItem :=
  let chunks := prepare_chunks (totalCollector sp se va) documents
  let best := bestCandidates (se chunks topic) topic
  (validateEvidence (va topic category (best.map (fun e => e.content))) best).map toItem

/-! The `StoryGenerator` of `story_generator.py` and the orchestrator
`AutoDocumentProcessor.process_documents` of `auto_processor.py`. -/

/-- The story record returned by `StoryGenerator.generate_story`: category,
topic list, narrative text, per-topic quote/support partition, and the
whitespace word count of the narrative. -/
structure Story where
  category : String
  topics : List String
  story : String
  evidence_used : List (String × (List EvidenceItem × List EvidenceItem))
  word_count : Nat
deriving DecidableEq

/-- External collaborator of `StoryGenerator`: the narrative LLM call, keyed
by the category, the rendered topic block and the rendered evidence block
interpolated into its prompt. -/
structure GeneratorOracle where
  story : String → String → String → Except String String

/-- One evidence line of the prompt's evidence block:
`f"- {text} (Source: {source})\n"`. -/
def evidenceLine (e : EvidenceItem) : String :=
  ("- ") ++ e.text ++ (" (Source: ") ++ e.source ++ (")\n")

/-- The evidence block contributed by one topic to the story prompt. -/
def evidenceEntryText (topic : String) (qs ss : List EvidenceItem) : String :=
  ("\nFor ") ++ topic ++ (":\n")
    ++ (if qs ≠ [] then ("Quotes:\n") ++ String.join (qs.map evidenceLine) else "")
    ++ (if ss ≠ [] then ("Supporting Evidence:\n") ++ String.join (ss.map evidenceLine) else "")

/-- `StoryGenerator.generate_story`: partition each topic's evidence into
quotes and support by relevance kind, render the prompt blocks, issue the LLM
call, and build the story record; any exception yields `None`. -/
def generate_story (o : GeneratorOracle) (category : String) (topics : List String)
    (evidence : List (String × List EvidenceItem)) : Option Story :=
  let evidence_by_topic := topics.foldl
    (fun acc t =>
      let topic_evidence := (dictGet? evidence t).getD []
      let quotes := topic_evidence.filter (fun e => e.relevance = ("direct_quote"))
      let support := topic_evidence.filter (fun e => e.relevance = ("supporting_evidence"))
      dictSet acc t (quotes, support))
    []
  let evidence_text := topics.foldl
    (fun acc t =>
      let qs := (dictGet? evidence_by_topic t).getD ([], [])
      acc ++ evidenceEntryText t qs.1 qs.2)
    ""
  match o.story category (strIntercalate ("\n") (topics.map (fun t => ("- ") ++ t))) evidence_text with
  | Except.ok story_content =>
    some
      { category := category
        topics := topics
        story := story_content
        evidence_used := evidence_by_topic
        word_count := (pySplitWs story_content).length }
  | Except.error _ => none

/-- The three sub-stage collaborators sequenced by the orchestrator. -/
structure PipelineOracle where
  extractor : ExtractorOracle
  collector : CollectorOracle
  generator : GeneratorOracle

/-- `AutoDocumentProcessor.process_documents`: extract topics, raise
`ValueError` when no category has a topic (the orchestrator's `except` clause
logs and re-raises, so `Except.error` models the exception reaching the
caller), otherwise collect evidence and generate one story per non-empty
category, dropping `None` stories, and return the bare story list.  The
intermediate-file writes are out-of-scope I/O glue and are not modelled. -/
def process_documents (o : PipelineOracle) (documents : List (String × String)) :
    Except String (List Story) :=
  let topics := extract_topics o.extractor documents
  if topics.concerns = [] ∧ topics.wins = [] ∧ topics.opportunities = [] then
    Except.error ("No topics were extracted from documents")
  else
    let evidence := collect_evidence o.collector documents topics
    let stories := (categoryPairs topics).foldl
      (fun acc ct =>
        if ct.2 ≠ [] then
          match generate_story o.generator ct.1 ct.2 evidence with
          | some s => acc ++ [s]
          | none => acc
        else acc)
      []
    Except.ok stories

/-! Derived views used by the statements below. -/

/-- The `(category, topic)` pairs in the order `collect_evidence` processes
them: categories in insertion order, topics in list order. -/
def topicOccurrences (topics : TopicSet) : List (String × String) :=
  (categoryPairs topics).flatMap (fun ct => ct.2.map (fun t => (ct.1, t)))

/-! Concrete fixtures used for counterexamples and witnesses. -/

/-- A one-document input map whose single document is non-empty. -/
def c1_docs : List (String × String) := [(("a.txt"), ("x"))]

/-- A never-raising pipeline whose final extraction reply contains no bullet
lines, so no topic is extracted. -/
def c1_oracle : PipelineOracle :=
  { extractor := totalExtractor (fun _ => ("sum")) (fun _ => ("syn")) (fun _ => ("nothing useful")) (fun _ => 0)
    collector := totalCollector (fun s => [s]) (fun _ _ => []) (fun _ _ _ => ("0"))
    generator := { story := fun _ _ _ => Except.ok ("story") } }

/-- A one-document input map for the batching counterexample. -/
def c2_docs : List (String × String) := [(("a.txt"), ("x"))]

/-- A never-raising extractor whose per-document summary reply is `"hi"`. -/
def c2_oracle : ExtractorOracle :=
  totalExtractor (fun _ => ("hi")) (fun _ => ("syn")) (fun _ => "") (fun _ => 0)

/-- A one-document input map for the evidence-cap counterexample. -/
def c3_docs : List (String × String) := [(("d.txt"), ("alpha"))]

/-- A similarity search returning a single candidate chunk. -/
def c3_se : List Chunk → String → List (Chunk × ℚ) :=
  fun _ _ => [({ content := ("alpha"), metadata := chunkMetaOf ("d.txt") 0 ("alpha") }, 0)]

/-- A topic structure with the single topic `"alpha"` under concerns. -/
def c3_topics : TopicSet :=
  { concerns := [("alpha")], wins := [], opportunities := [],
    quotes := { concerns := [], wins := [], opportunities := [] } }

/-- A validation oracle replying with six duplicated indices. -/
def c3_va : String → String → List String → String := fun _ _ _ => ("0,0,0,0,0,0")

/-- A validation oracle replying with a single in-range index. -/
def c3w_va : String → String → List String → String := fun _ _ _ => ("0")

/-- Two concrete pre-validation candidates for the index-range counterexample. -/
def c4_cands : List ScoredCandidate :=
  [{ content := ("one"), metadata := chunkMetaOf ("a.txt") 0 ("one"), similarity := 0 },
   { content := ("two"), metadata := chunkMetaOf ("a.txt") 1 ("two"), similarity := 0 }]

/-- A validation oracle whose reply does not parse as integers. -/
def c4w_va : String → String → List String → String := fun _ _ _ => ("x,y")

/-- A never-raising extractor whose final extraction reply holds only a quote
line under a header, and no bullet line. -/
def c5_oracle : ExtractorOracle :=
  totalExtractor (fun _ => ("s")) (fun _ => ("y")) (fun _ => ("CONCERNS:\n> stray quote")) (fun _ => 0)

/-- A one-document, non-empty input map for the shape counterexample. -/
def c5_docs : List (String × String) := [(("a.txt"), ("some text"))]

/-- An extractor whose final categorization call raises. -/
def c5w_oracle : ExtractorOracle :=
  { summary := fun _ => Except.ok ("s")
    synthesis := fun _ => Except.ok ("y")
    topics := fun _ => Except.error ("boom")
    tokens := fun _ => Except.ok 0 }

/-- A never-raising pipeline that extracts one concern and generates one
story, witnessing the non-fatal direction of the orchestrator contract. -/
def c7w_oracle : PipelineOracle :=
  { extractor := totalExtractor (fun _ => ("sum")) (fun _ => ("syn")) (fun _ => ("CONCERNS:\n- alpha")) (fun _ => 0)
    collector := totalCollector (fun s => [s]) c3_se (fun _ _ _ => ("0"))
    generator := { story := fun _ _ _ => Except.ok ("a fine story") } }

/-- A one-document input map for the orchestrator witness. -/
def c7w_docs : List (String × String) := [(("d.txt"), ("alpha"))]

/-- A never-raising pipeline whose final extraction reply has no bullet
lines, used to witness the fatal direction of the orchestrator contract. -/
def c7w_empty_oracle : PipelineOracle :=
  { extractor := totalExtractor (fun _ => ("sum")) (fun _ => ("syn")) (fun _ => ("no bullet lines here")) (fun _ => 0)
    collector := totalCollector (fun s => [s]) (fun _ _ => []) (fun _ _ _ => ("0"))
    generator := { story := fun _ _ _ => Except.ok ("story") } }

/-- The top-5 candidate list computed for one topic under a never-raising
collector oracle, prior to validation. -/
def bestFor (sp : String → List String) (se : List Chunk → String → List (Chunk × ℚ))
    (va : String → String → List String → String) (docs : List (String × String)) (tpc : String) :
    List ScoredCandidate :=
  bestCandidates (se (prepare_chunks (totalCollector sp se va) docs) tpc) tpc

/-- The validation reply received for one topic under a never-raising
collector oracle. -/
def replyFor (sp : String → List String) (se : List Chunk → String → List (Chunk × ℚ))
    (va : String → String → List String → String) (docs : List (String × String)) (cat tpc : String) :
    String :=
  va tpc cat ((bestFor sp se va docs tpc).map (fun e => e.content))

/-! Auxiliary lemmas about the Python dict model. -/

theorem dictGet?_dictSet_self (d : List (String × α)) (k : String) (v : α) :
    dictGet? (dictSet d k v) k = some v := by
  induction d with
  | nil => simp [dictSet, dictGet?]
  | cons p rest ih =>
    by_cases h : p.1 = k
    · simp [dictSet, h, dictGet?]
    · simp [dictSet, h, dictGet?, ih]

theorem dictGet?_dictSet_ne (d : List (String × α)) (k k' : String) (v : α) (h : ¬ k = k') :
    dictGet? (dictSet d k v) k' = dictGet? d k' := by
  induction d with
  | nil => simp [dictSet, dictGet?, h]
  | cons p rest ih =>
    by_cases hp : p.1 = k
    · simp [dictSet, hp, dictGet?, h]
    · simp [dictSet, hp, dictGet?, ih]

theorem dictGet?_foldl_dictSet (f : β → String) (g : β → α) (L : List β) :
    ∀ (init : List (String × α)) (k : String),
      dictGet? (L.foldl (fun acc b => dictSet acc (f b) (g b)) init) k
        = ((L.filter (fun b => f b = k)).getLast?).elim (dictGet? init k) (fun b => some (g b)) := by
  induction L using List.reverseRecOn with
  | nil => intro init k; simp
  | append_singleton L b ih =>
    intro init k
    rw [List.foldl_append, List.filter_append]
    by_cases hb : f b = k
    · simp only [List.foldl_cons, List.foldl_nil, List.filter_cons, hb]
      simp [List.getLast?_concat, dictGet?_dictSet_self]
    · simp only [List.foldl_cons, List.foldl_nil, List.filter_cons, hb]
      simp [dictGet?_dictSet_ne _ _ _ _ hb, ih]

theorem keys_dictSet (d : List (String × α)) (k : String) (v : α) :
    (dictSet d k v).map Prod.fst
      = if k ∈ d.map Prod.fst then d.map Prod.fst else d.map Prod.fst ++ [k] := by
  induction d with
  | nil => simp [dictSet]
  | cons p rest ih =>
    by_cases hp : p.1 = k
    · simp [dictSet, hp]
    · by_cases hk : k ∈ rest.map Prod.fst
      · simp [dictSet, hp, ih, hk, Ne.symm hp]
      · simp [dictSet, hp, ih, hk, Ne.symm hp]

theorem nodup_keys_dictSet (d : List (String × α)) (k : String) (v : α)
    (h : (d.map Prod.fst).Nodup) : ((dictSet d k v).map Prod.fst).Nodup := by
  rw [keys_dictSet]
  by_cases hk : k ∈ d.map Prod.fst
  · simp [hk, h]
  · simp [hk, List.nodup_append, h]

theorem nodup_keys_foldl_dictSet (f : β → String) (g : β → α) (L : List β) :
    ∀ (init : List (String × α)), (init.map Prod.fst).Nodup →
      ((L.foldl (fun acc b => dictSet acc (f b) (g b)) init).map Prod.fst).Nodup := by
  induction L with
  | nil => intro init h; simpa using h
  | cons b L ih =>
    intro init h
    rw [List.foldl_cons]
    exact ih _ (nodup_keys_dictSet _ _ _ h)

/-! Auxiliary lemmas reducing the monadic pipeline under never-raising
oracles to plain folds. -/

theorem topicEvidence_total (sp : String → List String) (se : List Chunk → String → List (Chunk × ℚ))
    (va : String → String → List String → String) (docs : List (String × String)) (cat tpc : String) :
    topicEvidence (totalCollector sp se va) (prepare_chunks (totalCollector sp se va) docs) cat tpc
      = Except.ok (topicEvidenceT sp se va docs cat tpc) := rfl

theorem inner_foldlM_total (tE : String → List EvidenceItem) (topics : List String) :
    ∀ (acc : List (String × List EvidenceItem)),
      (topics.foldlM (fun acc2 topic => do
          let items ← (Except.ok (tE topic) : Except String (List EvidenceItem))
          pure (dictSet acc2 topic items)) acc)
        = Except.ok (topics.foldl (fun acc2 topic => dictSet acc2 topic (tE topic)) acc) := by
  induction topics with
  | nil => intro acc; rfl
  | cons t ts ih => intro acc; simp only [List.foldlM_cons, List.foldl_cons]; exact ih _

theorem collect_evidence_total (sp : String → List String) (se : List Chunk → String → List (Chunk × ℚ))
    (va : String → String → List String → String) (docs : List (String × String)) (ts : TopicSet) :
    collect_evidence (totalCollector sp se va) docs ts
      = (topicOccurrences ts).foldl
          (fun acc ct => dictSet acc ct.2 (topicEvidenceT sp se va docs ct.1 ct.2)) [] := by
  have hstep : ∀ (cat : String) (tl : List String) (acc : List (String × List EvidenceItem)),
      (tl.foldlM (fun acc2 topic => do
          let items ← topicEvidence (totalCollector sp se va) (prepare_chunks (totalCollector sp se va) docs) cat topic
          pure (dictSet acc2 topic items)) acc)
        = Except.ok (tl.foldl (fun acc2 topic => dictSet acc2 topic (topicEvidenceT sp se va docs cat topic)) acc) := by
    intro cat tl acc
    exact inner_foldlM_total (fun topic => topicEvidenceT sp se va docs cat topic) tl acc
  show
    (match
      ((categoryPairs ts).foldlM
        (fun acc ct =>
          ct.2.foldlM
            (fun acc2 topic => do
              let items ← topicEvidence (totalCollector sp se va) (prepare_chunks (totalCollector sp se va) docs) ct.1 topic
              pure (dictSet acc2 topic items))
            acc)
        ([] : List (String × List EvidenceItem)) : Except String (List (String × List EvidenceItem)))
    with
    | Except.ok r => r
    | Except.error _ => []) = _
  rw [show (categoryPairs ts) = [(("concerns"), ts.concerns), (("wins"), ts.wins), (("opportunities"), ts.opportunities)] from rfl]
  have hocc :
      (topicOccurrences ts).foldl
          (fun acc ct => dictSet acc ct.2 (topicEvidenceT sp se va docs ct.1 ct.2)) []
        = List.foldl
            (fun acc t => dictSet acc t (topicEvidenceT sp se va docs ("opportunities") t))
            (List.foldl (fun acc t => dictSet acc t (topicEvidenceT sp se va docs ("wins") t))
              (List.foldl (fun acc t => dictSet acc t (topicEvidenceT sp se va docs ("concerns") t))
                [] ts.concerns)
              ts.wins)
            ts.opportunities := by
    simp [topicOccurrences, categoryPairs, List.foldl_append, List.foldl_map]
  rw [hocc]
  simp only [List.foldlM_cons, List.foldlM_nil, hstep]
  rfl

theorem foldlM_token_filter (tk : String → Nat) (f : β → String) (L : List β) :
    ∀ (acc : List String),
      (L.foldlM (fun acc b => do
          let tokens ← (pure (tk (f b)) : Except String Nat)
          pure (if tokens ≤ max_tokens then acc ++ [f b] else acc)) acc)
        = Except.ok (acc ++ (L.map f).filter (fun s => tk s ≤ max_tokens)) := by
  induction L with
  | nil => intro acc; simp only [List.foldlM_nil, List.map_nil, List.filter_nil, List.append_nil]; rfl
  | cons b L ih =>
    intro acc
    simp only [List.foldlM_cons, List.map_cons, List.filter_cons, pure_bind] at ih ⊢
    rw [ih]
    by_cases hb : tk (f b) ≤ max_tokens
    · simp [hb]
    · simp [hb]

theorem bestCandidates_length_le (results : List (Chunk × ℚ)) (topic : String) :
    (bestCandidates results topic).length ≤ 5 := by
  simp only [bestCandidates, List.length_map, List.length_take]
  omega

theorem validateEvidence_length (reply : String) (best : List ScoredCandidate)
    (hb : best.length ≤ 5) (hr : ((pyParseReply reply).getD []).length ≤ 5) :
    (validateEvidence reply best).length ≤ 5 := by
  unfold validateEvidence
  cases hp : pyParseReply reply with
  | none => simpa using hb
  | some is =>
    rw [hp] at hr
    simp only [Option.getD_some] at hr
    dsimp only
    by_cases hall : (is.filter (fun i => i < (best.length : Int))).all (fun i => -(best.length : Int) ≤ i) = true
    · rw [if_pos hall]
      calc ((is.filter (fun i => i < (best.length : Int))).filterMap (fun i => pyGet? best i)).length
          ≤ (is.filter (fun i => i < (best.length : Int))).length := List.length_filterMap_le _ _
        _ ≤ is.length := List.length_filter_le _ _
        _ ≤ 5 := hr
    · rw [if_neg hall]
      exact hb

/-! Claim theorems. -/

/-- C1.  The claim says `process_documents` never lets an exception reach the
caller and always returns a `ProcessingResult` envelope with a `status`
field.  The code does neither: its `except` clause logs and re-raises, so
with a one-document input whose extraction reply yields no topics the
`ValueError` propagates to the caller (modelled as `Except.error`), and a
successful run returns a bare story list with no status or metadata. -/
theorem c1_exception_propagates :
    process_documents c1_oracle c1_docs = Except.error ("No topics were extracted from documents") := by
  rfl

/-- C2.  Stage 2 batches at most 10 documents and issues exactly one
synthesis request per batch, but the request content is not the merge of the
batch's per-document summaries: `_batch_synthesis` receives the pre-joined
`batch_text` string where its annotation says `List[str]`, so
`"\n\n".join` iterates the characters.  For the single batch
`File: a.txt` + summary `hi`, the request is every character of
`"File: a.txt\nhi"` separated by blank lines, differing from both the batch
text and the joined summaries. -/
theorem c2_synthesis_request_garbled :
    synthesisRequests c2_oracle c2_docs
        = [("F\n\ni\n\nl\n\ne\n\n:\n\n \n\na\n\n.\n\nt\n\nx\n\nt\n\n\n\n\nh\n\ni")]
    ∧ batch_text [(("a.txt"), ("hi"))] = ("File: a.txt\nhi")
    ∧ ("F\n\ni\n\nl\n\ne\n\n:\n\n \n\na\n\n.\n\nt\n\nx\n\nt\n\n\n\n\nh\n\ni" : String) ≠ ("File: a.txt\nhi")
    ∧ ("F\n\ni\n\nl\n\ne\n\n:\n\n \n\na\n\n.\n\nt\n\nx\n\nt\n\n\n\n\nh\n\ni" : String)
        ≠ strIntercalate ("\n\n") [("hi")]
    ∧ (chunksOf batch_size (initialSummaries c2_oracle c2_docs)).length = 1 := by
  decide

/-- C3 counterexample.  The claim caps the per-topic evidence at 5 items,
but a validation reply listing the index 0 six times makes
`collect_evidence` return six (duplicated) items for the topic, because the
index comprehension keeps repetitions. -/
theorem c3_cap_counterexample :
    (dictGet? (collect_evidence (totalCollector (fun s => [s]) c3_se c3_va) c3_docs c3_topics) ("alpha")).map
        List.length = some 6 := by
  decide

/-- C3 amended.  The per-topic evidence count is at most 5 whenever every
validation reply either fails to parse or parses to at most five integers;
only a parsed reply selecting more than five (for example repeated) indices
can exceed the cap. -/
theorem c3_cap_amended (sp : String → List String) (se : List Chunk → String → List (Chunk × ℚ))
    (va : String → String → List String → String) (docs : List (String × String)) (ts : TopicSet)
    (hva : ∀ tpc cat xs, ((pyParseReply (va tpc cat xs)).getD []).length ≤ 5)
    (t : String) (items : List EvidenceItem)
    (h : dictGet? (collect_evidence (totalCollector sp se va) docs ts) t = some items) :
    items.length ≤ 5 := by
  rw [collect_evidence_total] at h
  rw [dictGet?_foldl_dictSet] at h
  cases hg : ((topicOccurrences ts).filter (fun ct => ct.2 = t)).getLast? with
  | none => rw [hg] at h; simp [dictGet?] at h
  | some ct =>
    rw [hg] at h
    simp only [Option.elim_some, Option.some.injEq] at h
    rw [← h]
    unfold topicEvidenceT
    rw [List.length_map]
    exact validateEvidence_length _ _ (bestCandidates_length_le _ _) (hva _ _ _)

/-- Witness for the amended C3 cap: a concrete run whose validation reply is
`"0"` yields one item, within the cap. -/
theorem c3_cap_amended_witness :
    ([{ text := ("alpha"), source := ("d.txt"), relevance := ("supporting_evidence") }] : List EvidenceItem).length ≤ 5 :=
  c3_cap_amended (fun s => [s]) c3_se c3w_va c3_docs c3_topics
    (fun tpc cat xs => by exact (by decide : ((pyParseReply ("0")).getD []).length ≤ 5)) ("alpha")
    [{ text := ("alpha"), source := ("d.txt"), relevance := ("supporting_evidence") }] (by decide)

/-- C4 counterexample.  The claim says a parsed reply is filtered to the
valid index range and exactly that subset is kept.  The reply `"-100"`
parses as an integer list, lies outside any valid index of the two-candidate
list, and yet every candidate is retained, because the negative index
passes the `i < len` filter, raises `IndexError` when used, and the
surrounding bare `except` then keeps everything. -/
theorem c4_failopen_counterexample :
    pyParseReply ("-100") = some [-100]
    ∧ ((-100 : Int) < 0)
    ∧ ((-100 : Int) < -(c4_cands.length : Int))
    ∧ validateEvidence ("-100") c4_cands = c4_cands
    ∧ c4_cands.length = 2 := by
  decide

/-- C4 amended.  For each topic: a reply that fails integer parsing keeps
all pre-validation candidates (fail-open); a parsed reply keeps, in reply
order and with repetition, the candidates selected by Python indexing after
dropping integers at least the candidate count, and negative indices count
from the end; if any remaining index is below minus the candidate count,
the raised `IndexError` again keeps all candidates. -/
theorem c4_failopen_amended (sp : String → List String)
    (se : List Chunk → String → List (Chunk × ℚ)) (va : String → String → List String → String)
    (docs : List (String × String)) (cat tpc : String) :
    (pyParseReply (replyFor sp se va docs cat tpc) = none →
      topicEvidenceT sp se va docs cat tpc = (bestFor sp se va docs tpc).map toItem)
    ∧ (∀ is, pyParseReply (replyFor sp se va docs cat tpc) = some is →
        ((is.filter (fun i => i < ((bestFor sp se va docs tpc).length : Int))).all
            (fun i => -((bestFor sp se va docs tpc).length : Int) ≤ i) = true →
          topicEvidenceT sp se va docs cat tpc
            = ((is.filter (fun i => i < ((bestFor sp se va docs tpc).length : Int))).filterMap
                (fun i => pyGet? (bestFor sp se va docs tpc) i)).map toItem)
        ∧ ((is.filter (fun i => i < ((bestFor sp se va docs tpc).length : Int))).all
            (fun i => -((bestFor sp se va docs tpc).length : Int) ≤ i) = false →
          topicEvidenceT sp se va docs cat tpc = (bestFor sp se va docs tpc).map toItem)) := by
  have hT : topicEvidenceT sp se va docs cat tpc
      = (validateEvidence (replyFor sp se va docs cat tpc) (bestFor sp se va docs tpc)).map toItem := rfl
  refine ⟨?_, ?_⟩
  · intro h
    rw [hT]
    unfold validateEvidence
    rw [h]
  · intro is h
    refine ⟨?_, ?_⟩
    · intro hall
      rw [hT]
      unfold validateEvidence
      rw [h]
      dsimp only
      rw [if_pos hall]
    · intro hall
      rw [hT]
      unfold validateEvidence
      rw [h]
      dsimp only
      rw [if_neg (by simp [hall])]

/-- Witness for the amended C4: with the unparseable reply `"x,y"` the
per-topic result keeps every pre-validation candidate. -/
theorem c4_failopen_amended_witness :
    topicEvidenceT (fun s => [s]) c3_se c4w_va c3_docs ("concerns") ("alpha")
      = (bestFor (fun s => [s]) c3_se c4w_va c3_docs ("alpha")).map toItem :=
  (c4_failopen_amended (fun s => [s]) c3_se c4w_va c3_docs ("concerns") ("alpha")).1 (by decide)

/-- C5 counterexample.  The claim allows only a non-empty category or the
canonical empty TopicSet, but a final reply holding a quote line under a
header and no bullet line produces a TopicSet whose three category lists
are empty while a quote list is not — neither a non-empty category nor the
canonical empty result, on a non-empty one-document input. -/
theorem c5_shape_counterexample :
    ("some text" : String) ≠ ""
    ∧ (extract_topics c5_oracle c5_docs).concerns = []
    ∧ (extract_topics c5_oracle c5_docs).wins = []
    ∧ (extract_topics c5_oracle c5_docs).opportunities = []
    ∧ (extract_topics c5_oracle c5_docs).quotes.concerns = [("stray quote")]
    ∧ extract_topics c5_oracle c5_docs ≠ get_empty_result := by
  decide

/-- C5 amended.  The extractor's result always carries exactly the three
category lists and the three quote lists: when the three category lists and
the three quote lists are all empty the result is exactly the canonical
empty TopicSet, and any exception escaping a stage (here the final
categorization call raising) yields exactly the canonical empty TopicSet;
category lists may however be all empty while quote lists are not. -/
theorem c5_shape_amended :
    (∀ (o : ExtractorOracle) (docs : List (String × String)),
        (extract_topics o docs).concerns = [] → (extract_topics o docs).wins = [] →
        (extract_topics o docs).opportunities = [] →
        (extract_topics o docs).quotes.concerns = [] →
        (extract_topics o docs).quotes.wins = [] →
        (extract_topics o docs).quotes.opportunities = [] →
        extract_topics o docs = get_empty_result)
    ∧ (∀ (su sy : String → Except String String) (tk : String → Except String Nat)
        (msg : String) (docs : List (String × String)),
        extract_topics
            { summary := su, synthesis := sy, topics := fun _ => Except.error msg, tokens := tk } docs
          = get_empty_result) := by
  constructor
  · intro o docs h1 h2 h3 h4 h5 h6
    rcases hE : extract_topics o docs with ⟨c, w, op, ⟨qc, qw, qo⟩⟩
    rw [hE] at h1 h2 h3 h4 h5 h6
    simp only at h1 h2 h3 h4 h5 h6
    subst h1; subst h2; subst h3; subst h4; subst h5; subst h6
    rfl
  · intro su sy tk msg docs
    unfold extract_topics extractStages
    cases h : finalSummaries { summary := su, synthesis := sy, topics := fun _ => Except.error msg, tokens := tk } docs with
    | error e => rfl
    | ok fs => rfl

/-- Witness for the amended C5: an extractor whose final call raises yields
exactly the canonical empty TopicSet. -/
theorem c5_shape_amended_witness :
    extract_topics c5w_oracle ([] : List (String × String)) = get_empty_result :=
  c5_shape_amended.1 c5w_oracle [] (by decide) (by decide) (by decide) (by decide) (by decide) (by decide)

/-- C6.  The response parser: a line whose stripped form upper-cases to a
category header switches the active category; a stripped line starting with
a bullet marker under an active category appends the trimmed remainder as a
topic; one starting with an angle marker appends a quote; every other line,
including bullets before any header, is dropped; and the sample reply
`CONCERNS / issue A / quoted line / WINS / win B` parses exactly as the
claim states. -/
theorem c6_parser_line_grammar :
    (parse_topics ("CONCERNS:\n- issue A\n> quoted line\nWINS:\n- win B")
      = { concerns := [("issue A")], wins := [("win B")], opportunities := [],
          quotes := { concerns := [("quoted line")], wins := [], opportunities := [] } })
    ∧ (∀ (st : Option Category × TopicSet) (line : String),
        pyUpper (pyStrip line) = ("CONCERNS:") → parseLine st line = (some Category.concerns, st.2))
    ∧ (∀ (st : Option Category × TopicSet) (line : String),
        pyUpper (pyStrip line) = ("WINS:") → parseLine st line = (some Category.wins, st.2))
    ∧ (∀ (st : Option Category × TopicSet) (line : String),
        pyUpper (pyStrip line) = ("OPPORTUNITIES:") → parseLine st line = (some Category.opportunities, st.2))
    ∧ (∀ (c : Category) (ts : TopicSet) (line : String),
        pyUpper (pyStrip line) ≠ ("CONCERNS:") → pyUpper (pyStrip line) ≠ ("WINS:") →
        pyUpper (pyStrip line) ≠ ("OPPORTUNITIES:") →
        pyStartsWith (pyStrip line) ("- ") = true →
        parseLine (some c, ts) line = (some c, ts.addTopic c (pyStrip (pyDropChars 2 (pyStrip line)))))
    ∧ (∀ (c : Category) (ts : TopicSet) (line : String),
        pyUpper (pyStrip line) ≠ ("CONCERNS:") → pyUpper (pyStrip line) ≠ ("WINS:") →
        pyUpper (pyStrip line) ≠ ("OPPORTUNITIES:") →
        pyStartsWith (pyStrip line) ("- ") = false →
        pyStartsWith (pyStrip line) ("> ") = true →
        parseLine (some c, ts) line = (some c, ts.addQuote c (pyStrip (pyDropChars 2 (pyStrip line)))))
    ∧ (∀ (st : Option Category × TopicSet) (line : String),
        pyUpper (pyStrip line) ≠ ("CONCERNS:") → pyUpper (pyStrip line) ≠ ("WINS:") →
        pyUpper (pyStrip line) ≠ ("OPPORTUNITIES:") →
        pyStartsWith (pyStrip line) ("- ") = false →
        pyStartsWith (pyStrip line) ("> ") = false →
        parseLine st line = st)
    ∧ (∀ (ts : TopicSet) (line : String),
        pyUpper (pyStrip line) ≠ ("CONCERNS:") → pyUpper (pyStrip line) ≠ ("WINS:") →
        pyUpper (pyStrip line) ≠ ("OPPORTUNITIES:") →
        parseLine (none, ts) line = (none, ts)) := by
  refine ⟨by decide, ?_, ?_, ?_, ?_, ?_, ?_, ?_⟩
  · intro st line h
    have hne : ¬ pyStrip line = "" := by
      intro he; rw [he] at h; exact absurd h (by decide)
    simp only [parseLine]
    rw [if_neg hne, if_pos h]
  · intro st line h
    have hne : ¬ pyStrip line = "" := by
      intro he; rw [he] at h; exact absurd h (by decide)
    have hc : ¬ pyUpper (pyStrip line) = ("CONCERNS:") := by rw [h]; decide
    simp only [parseLine]
    rw [if_neg hne, if_neg hc, if_pos h]
  · intro st line h
    have hne : ¬ pyStrip line = "" := by
      intro he; rw [he] at h; exact absurd h (by decide)
    have hc : ¬ pyUpper (pyStrip line) = ("CONCERNS:") := by rw [h]; decide
    have hw : ¬ pyUpper (pyStrip line) = ("WINS:") := by rw [h]; decide
    simp only [parseLine]
    rw [if_neg hne, if_neg hc, if_neg hw, if_pos h]
  · intro c ts line hc hw ho hb
    have hne : ¬ pyStrip line = "" := by
      intro he; rw [he] at hb; exact absurd hb (by decide)
    simp only [parseLine]
    rw [if_neg hne, if_neg hc, if_neg hw, if_neg ho, if_pos hb]
  · intro c ts line hc hw ho hb hq
    have hne : ¬ pyStrip line = "" := by
      intro he; rw [he] at hq; exact absurd hq (by decide)
    simp only [parseLine]
    rw [if_neg hne, if_neg hc, if_neg hw, if_neg ho, if_neg (by simp [hb]), if_pos hq]
  · intro st line hc hw ho hb hq
    by_cases hne : pyStrip line = ""
    · simp only [parseLine]
      rw [if_pos hne]
    · simp only [parseLine]
      rw [if_neg hne, if_neg hc, if_neg hw, if_neg ho, if_neg (by simp [hb]), if_neg (by simp [hq])]
  · intro ts line hc hw ho
    by_cases hne : pyStrip line = ""
    · simp only [parseLine]
      rw [if_pos hne]
    · simp only [parseLine]
      rw [if_neg hne, if_neg hc, if_neg hw, if_neg ho]
      by_cases hb : pyStartsWith (pyStrip line) ("- ")
      · rw [if_pos hb]
      · rw [if_neg hb]
        by_cases hq : pyStartsWith (pyStrip line) ("> ")
        · rw [if_pos hq]
        · rw [if_neg hq]

/-- Witness for C6: a padded, mixed-case header line switches the active
category to concerns. -/
theorem c6_parser_line_grammar_witness :
    parseLine (none, get_empty_result) (" Concerns: ") = (some Category.concerns, get_empty_result) :=
  c6_parser_line_grammar.2.1 (none, get_empty_result) (" Concerns: ") (by decide)

/-- C7.  The orchestrated run fails (the `ValueError` escapes, modelled as
`Except.error`) exactly when the extracted TopicSet has no topic in any of
the three categories; whenever some category has a topic, the run proceeds
through evidence collection and story generation and returns a story list,
regardless of how partial or empty the downstream data is. -/
theorem c7_fatal_iff_no_topics (o : PipelineOracle) (docs : List (String × String)) :
    (process_documents o docs = Except.error ("No topics were extracted from documents")
      ↔ ((extract_topics o.extractor docs).concerns = []
          ∧ (extract_topics o.extractor docs).wins = []
          ∧ (extract_topics o.extractor docs).opportunities = []))
    ∧ (¬ ((extract_topics o.extractor docs).concerns = []
          ∧ (extract_topics o.extractor docs).wins = []
          ∧ (extract_topics o.extractor docs).opportunities = []) →
        ∃ stories, process_documents o docs = Except.ok stories) := by
  by_cases hc : (extract_topics o.extractor docs).concerns = []
      ∧ (extract_topics o.extractor docs).wins = []
      ∧ (extract_topics o.extractor docs).opportunities = []
  · constructor
    · unfold process_documents
      rw [if_pos hc]
      exact ⟨fun _ => hc, fun _ => rfl⟩
    · intro hn; exact absurd hc hn
  · constructor
    · unfold process_documents
      rw [if_neg hc]
      exact ⟨fun h => absurd h (by simp), fun h => absurd h hc⟩
    · intro _
      unfold process_documents
      rw [if_neg hc]
      exact ⟨_, rfl⟩

/-- Witness for C7: a run whose extraction reply has no bullet lines fails
with the no-topics error. -/
theorem c7_fatal_iff_no_topics_witness :
    process_documents c7w_empty_oracle c7w_docs = Except.error ("No topics were extracted from documents") :=
  (c7_fatal_iff_no_topics c7w_empty_oracle c7w_docs).1.mpr (by decide)

/-- C8.  Under a never-raising tokenizer, the retained stage-2 aggregate is
exactly the per-batch syntheses whose measured token count is at most the
6000-token ceiling, in batch order: an oversized synthesis is dropped, and
nothing is retried, re-split or truncated. -/
theorem c8_token_ceiling_filter (su sy tp : String → String) (tk : String → Nat)
    (docs : List (String × String)) :
    finalSummaries (totalExtractor su sy tp tk) docs
      = Except.ok ((batchSyntheses (totalExtractor su sy tp tk) docs).filter
          (fun s => tk s ≤ max_tokens)) := by
  unfold finalSummaries batchSyntheses
  exact foldlM_token_filter tk
    (fun b => batch_synthesis (totalExtractor su sy tp tk) (batch_text b)) _ []

/-- C9.  Holding the similarity fixed, a chunk carrying all four heuristic
signals (a quotation mark, a digit, at least ten words, a case-insensitive
topic-keyword substring match) receives a strictly higher composite score —
the average of similarity and the heuristic sum — than a chunk carrying
none of them. -/
theorem c9_scoring_monotone (sim : ℚ) (topic src1 src2 : String) (i1 i2 : Nat) (text1 text2 : String)
    (h1q : text1.toList.any (fun c => c = '"') = true)
    (h1n : text1.toList.any Char.isDigit = true)
    (h1w : 10 ≤ (pySplitWs text1).length)
    (h1k : (pySplitWs (pyLower topic)).any (fun kw => pyIn kw (pyLower text1)) = true)
    (h2q : text2.toList.any (fun c => c = '"') = false)
    (h2n : text2.toList.any Char.isDigit = false)
    (h2w : (pySplitWs text2).length < 10)
    (h2k : (pySplitWs (pyLower topic)).any (fun kw => pyIn kw (pyLower text2)) = false) :
    final_score sim (score_evidence { content := text2, metadata := chunkMetaOf src2 i2 text2, similarity := sim } topic)
      < final_score sim (score_evidence { content := text1, metadata := chunkMetaOf src1 i1 text1, similarity := sim } topic) := by
  have h2w' : ¬ 10 ≤ (pySplitWs text2).length := by omega
  have hs1 : score_evidence { content := text1, metadata := chunkMetaOf src1 i1 text1, similarity := sim } topic = 1 := by
    simp only [score_evidence, chunkMetaOf, h1q, h1n, h1k, if_true]
    rw [if_pos h1w]
    norm_num
  have hs2 : score_evidence { content := text2, metadata := chunkMetaOf src2 i2 text2, similarity := sim } topic = 0 := by
    simp only [score_evidence, chunkMetaOf, h2q, h2n, h2k, Bool.false_eq_true, if_false]
    rw [if_neg h2w']
  rw [hs1, hs2]
  unfold final_score
  linarith

/-- Witness for C9 at concrete chunks: an eleven-word quoted, numbered,
keyword-matching chunk outscores a three-word chunk with no signals. -/
theorem c9_scoring_monotone_witness :
    final_score (1/2) (score_evidence
        { content := ("short text"),
          metadata := chunkMetaOf ("b.txt") 0 ("short text"), similarity := 1/2 } ("crash"))
      < final_score (1/2) (score_evidence
        { content := ("The \"login\" page crashed 42 times for many users this week"),
          metadata := chunkMetaOf ("a.txt") 0 ("The \"login\" page crashed 42 times for many users this week"), similarity := 1/2 } ("crash")) :=
  c9_scoring_monotone (1/2) ("crash") ("a.txt") ("b.txt") 0 0
    ("The \"login\" page crashed 42 times for many users this week") ("short text")
    (by decide) (by decide) (by decide) (by decide) (by decide) (by decide) (by decide) (by decide)

/-- C10.  Under a never-raising collector oracle, the evidence map is keyed
by topic text alone: its keys are free of duplicates, and looking up a
topic string yields exactly the evidence computed for the last occurrence
of that string in processing order (categories in insertion order, topics
in list order), so later occurrences overwrite earlier ones and all
categories sharing a topic string see the same evidence. -/
theorem c10_keyed_by_topic (sp : String → List String) (se : List Chunk → String → List (Chunk × ℚ))
    (va : String → String → List String → String) (docs : List (String × String)) (ts : TopicSet)
    (t : String) :
    dictGet? (collect_evidence (totalCollector sp se va) docs ts) t
      = (((topicOccurrences ts).filter (fun ct => ct.2 = t)).getLast?).map
          (fun ct => topicEvidenceT sp se va docs ct.1 ct.2)
    ∧ ((collect_evidence (totalCollector sp se va) docs ts).map Prod.fst).Nodup := by
  constructor
  · rw [collect_evidence_total, dictGet?_foldl_dictSet]
    cases ((topicOccurrences ts).filter (fun ct => ct.2 = t)).getLast? <;> simp [dictGet?]
  · rw [collect_evidence_total]
    exact nodup_keys_foldl_dictSet _ _ _ _ (by simp)

end AutoDoc
